import Mathlib

/-!
# Verification of the fluent HTTP request builder's retry engine

Shallow embedding of `src/fluent.go` (package `fluent`): the `request`
builder struct, request materialization (`newRequest`), the single-attempt
function (`doReq`), and the retry driver (`do`/`Send`).

External collaborators are modelled by their contracts:

* `encoding/json.Marshal` — each Go value either serializes to bytes or
  fails with an error; a payload value is therefore represented by which of
  the two happens (`JsonVal`).
* `http.Client.Do` — one transport exchange returns a response or an
  error; a run is parameterized by `t : Nat → DoResult`, the outcome the
  transport would give to the i-th attempt.
* `github.com/lafikl/backoff.Retry` — not part of this repository's
  sources; modelled from the spec (§4.2): it repeatedly invokes the
  operation while the operation returns an error, sleeping a backoff delay
  between invocations, and gives up returning the last error once the
  elapsed-time budget is exhausted.  Real time is abstracted by `fuel`,
  the number of backoff delays the elapsed-time budget still permits.
-/

namespace Fluent

/-- Go `error` values, abstracted to their message. -/
abbrev Err := String

/-- A Go value handed to `Json`: `encoding/json.Marshal` either serializes
it to bytes (`val s`) or fails (`bad e`, e.g. a channel value). -/
inductive JsonVal where
  | val (bytes : String)
  | bad (e : Err)
deriving Repr, DecidableEq

/-- Contract of `encoding/json.Marshal` on the builder's `json` field
(`interface{}`; a Go nil interface marshals to `null`). -/
def marshal : Option JsonVal → Except Err String
  | none => Except.ok "null"
  | some (JsonVal.val s) => Except.ok s
  | some (JsonVal.bad e) => Except.error e

/-- An `*http.Response` as the engine inspects it: status code plus
whatever else the caller may read (abstracted to a body string). -/
structure Response where
  statusCode : Int
  body : String
deriving Repr, DecidableEq

/-- Empty header mapping (Go map with no entries; lookup misses). -/
def emptyHeader : String → Option String := fun _ => none

/-- An `*http.Request` built by `http.NewRequest` and decorated with the
builder's headers.  Header lookup is by key, matching Go map semantics. -/
structure HttpReq where
  method : String
  url : String
  body : Option String
  header : String → Option String

/-- The `request` struct of `src/fluent.go` (fields `timeout` and the
`backoff` parameter block are omitted: no claim reads them, and real-time
backoff is abstracted by the `fuel` argument of `backoffRetry`).
`header` is the Go `map[string]string` as a lookup function. -/
structure Request where
  header : String → Option String
  method : String
  json : Option JsonVal
  jsonIsSet : Bool
  url : String
  retry : Int
  body : Option String
  res : Option Response
  err : Option Err
  req : Option HttpReq

/-- What one call of `http.Client.Do` returns: `(res, err)`. -/
structure DoResult where
  res : Option Response
  err : Option Err

/-- Contract of `http.NewRequest` for well-formed method and URL (the
claims never exercise a malformed method or URL, where Go would error). -/
def httpNewRequest (method url : String) (body : Option String) : HttpReq :=
  { method := method, url := url, body := body, header := emptyHeader }

/-- `newRequest` of `src/fluent.go`: serialize the structured payload when
`jsonIsSet`, else use the raw body when present, else no body. -/
def newRequest (f : Request) : Except Err HttpReq :=
  if f.jsonIsSet then
    match marshal f.json with
    | Except.error jsonErr => Except.error jsonErr
    | Except.ok body => Except.ok (httpNewRequest f.method f.url (some body))
  else
    match f.body with
    | some b => Except.ok (httpNewRequest f.method f.url (some b))
    | none => Except.ok (httpNewRequest f.method f.url none)

/-- The header-application loop of `doReq`: `req.Header.Set(k, v)` for every
entry of the builder's map (Set replaces per key; keys absent from the
builder's map keep the materialized request's value). -/
def setHeaders (f : Request) (r : HttpReq) : HttpReq :=
  { r with header := fun k =>
      match f.header k with
      | some v => some v
      | none => r.header k }

/-- `doReq` of `src/fluent.go`, one attempt given the transport's outcome
`t` for it: materialize the request (returning the construction error on
failure), apply headers, then classify the exchange.  A transport error is
stored in `f.err` and the function returns nil; a 5xx status with budget
remaining decrements the budget and returns the "Server Error" signal;
otherwise the response is stored and nil returned. -/
def doReq (f : Request) (t : DoResult) : Request × Option Err :=
  match newRequest f with
  | Except.error reqErr => (f, some reqErr)
  | Except.ok req0 =>
    let f1 := { f with req := some (setHeaders f req0) }
    match t.err with
    | some e => ({ f1 with err := some e }, none)
    | none =>
      match t.res with
      | some res =>
        if 500 ≤ res.statusCode ∧ res.statusCode ≤ 599 ∧ 0 < f1.retry then
          ({ f1 with retry := f1.retry - 1 }, some "Server Error")
        else
          ({ f1 with res := some res }, none)
      | none => (f1, none)

/-- Modelled from the spec: `backoff.Retry(op, f.backoff)` of the external
backoff library.  Invoke the operation; on nil stop with nil; otherwise, if
the elapsed-time budget permits no further delay (`fuel = 0`), give up
returning the last error, else sleep one backoff delay and repeat.  `i` is
the index the transport assigns to the next attempt; the returned `Nat`
counts operation invocations (for stating attempt-count properties). -/
def backoffRetry (t : Nat → DoResult) : Nat → Nat → Request → Request × Option Err × Nat
  | 0, i, f =>
    let r := doReq f (t i)
    (r.1, r.2, 1)
  | fuel + 1, i, f =>
    let r := doReq f (t i)
    match r.2 with
    | none => (r.1, none, 1)
    | some _ =>
      let q := backoffRetry t fuel (i + 1) r.1
      (q.1, q.2.1, q.2.2 + 1)

/-- Result of a run of `do`: the final builder state, the returned
response and error, and the number of `doReq` invocations (each performs
exactly one transport exchange when `newRequest` succeeds). -/
structure RunResult where
  state : Request
  response : Option Response
  error : Option Err
  ops : Nat

/-- `do` of `src/fluent.go`: one `doReq`; if it signalled an error, run the
backoff retry driver over the same operation; a driver error is returned
as the error; otherwise the side-channel `f.err` (a stored transport
error) is returned when set, else the stored response with nil error. -/
def doRun (t : Nat → DoResult) (fuel : Nat) (f : Request) : RunResult :=
  let r := doReq f (t 0)
  match r.2 with
  | none =>
    match r.1.err with
    | some e => ⟨r.1, none, some e, 1⟩
    | none => ⟨r.1, r.1.res, none, 1⟩
  | some _ =>
    let q := backoffRetry t fuel 1 r.1
    match q.2.1 with
    | some e => ⟨q.1, none, some e, 1 + q.2.2⟩
    | none =>
      match q.1.err with
      | some e => ⟨q.1, none, some e, 1 + q.2.2⟩
      | none => ⟨q.1, q.1.res, none, 1 + q.2.2⟩

/-- `Send` of `src/fluent.go`: run `do` and return `(res, err)`. -/
def Send (t : Nat → DoResult) (fuel : Nat) (f : Request) : Option Response × Option Err :=
  ((doRun t fuel f).response, (doRun t fuel f).error)

/-- `Url` setter. -/
def Url (f : Request) (url : String) : Request := { f with url := url }

/-- `Method` setter. -/
def Method (f : Request) (method : String) : Request := { f with method := method }

/-- `Post`: `Url` then `Method "POST"`. -/
def Post (f : Request) (url : String) : Request := Method (Url f url) "POST"

/-- `Put`. -/
def Put (f : Request) (url : String) : Request := Method (Url f url) "PUT"

/-- `Patch`. -/
def Patch (f : Request) (url : String) : Request := Method (Url f url) "PATCH"

/-- `Get`. -/
def Get (f : Request) (url : String) : Request := Method (Url f url) "GET"

/-- `Delete`. -/
def Delete (f : Request) (url : String) : Request := Method (Url f url) "DELETE"

/-- `SetHeader`: Go map assignment `f.header[key] = value`, replacing any
existing value for that key. -/
def SetHeader (f : Request) (key value : String) : Request :=
  { f with header := fun k => if k = key then some value else f.header k }

/-- `Json`: store the payload, mark it set, and force the Content-type
header to application/json. -/
def Json (f : Request) (j : JsonVal) : Request :=
  SetHeader { f with json := some j, jsonIsSet := true } "Content-type" "application/json"

/-- `Body`: store the raw body source. -/
def Body (f : Request) (b : String) : Request := { f with body := some b }

/-- `Retry`: set the retry budget. -/
def Retry (f : Request) (r : Int) : Request := { f with retry := r }

/-- `New` of `src/fluent.go`: `new(request)` zero value with an empty header
map and a nil error (the `backoff` block it also allocates is abstracted
away, see `backoffRetry`). -/
def New : Request :=
  { header := emptyHeader, method := "", json := none, jsonIsSet := false,
    url := "", retry := 0, body := none, res := none, err := none, req := none }

/-! ## Step lemmas for one attempt -/

/-- A failing `newRequest` short-circuits `doReq`, leaving the state
untouched and returning the construction error as the operation error. -/
theorem doReq_reqErr (f : Request) (t : DoResult) (e : Err)
    (h : newRequest f = Except.error e) : doReq f t = (f, some e) := by
  simp [doReq, h]

/-- A transport-level failure stores the error in the `err` side channel and
returns nil from the operation; the budget is untouched. -/
theorem doReq_transErr (f : Request) (t : DoResult) (req0 : HttpReq) (e : Err)
    (hreq : newRequest f = Except.ok req0) (ht : t.err = some e) :
    doReq f t = ({ f with req := some (setHeaders f req0), err := some e }, none) := by
  simp [doReq, hreq, ht]

/-- A 5xx response with budget remaining decrements the budget and returns
the "Server Error" signal. -/
theorem doReq_server (f : Request) (t : DoResult) (req0 : HttpReq) (r : Response)
    (hreq : newRequest f = Except.ok req0) (ht : t.err = none) (hr : t.res = some r)
    (h5 : 500 ≤ r.statusCode) (h5' : r.statusCode ≤ 599) (hb : 0 < f.retry) :
    doReq f t =
      ({ f with req := some (setHeaders f req0), retry := f.retry - 1 },
        some "Server Error") := by
  simp [doReq, hreq, ht, hr, h5, h5', hb]

/-- A nil response with nil error (never produced by a real `http.Client`)
leaves the state untouched apart from the materialized request. -/
theorem doReq_noRes (f : Request) (t : DoResult) (req0 : HttpReq)
    (hreq : newRequest f = Except.ok req0) (ht : t.err = none) (hr : t.res = none) :
    doReq f t = ({ f with req := some (setHeaders f req0) }, none) := by
  simp [doReq, hreq, ht, hr]

/-- Any other response resolves the attempt: the response is stored, the
budget is untouched, and the operation returns nil. -/
theorem doReq_success (f : Request) (t : DoResult) (req0 : HttpReq) (r : Response)
    (hreq : newRequest f = Except.ok req0) (ht : t.err = none) (hr : t.res = some r)
    (hnot : ¬(500 ≤ r.statusCode ∧ r.statusCode ≤ 599 ∧ 0 < f.retry)) :
    doReq f t = ({ f with req := some (setHeaders f req0), res := some r }, none) := by
  simp only [doReq, hreq, ht, hr]
  rw [if_neg hnot]

/-- Re-setting `req` to the value it already holds is the identity. -/
theorem req_set_eta (f : Request) (x : HttpReq) (h : f.req = some x) :
    ({ f with req := some x } : Request) = f := by
  cases f
  simp_all

/-- Re-setting `req` to the value it already holds collapses a double
update to the budget update alone. -/
theorem req_retry_update (f : Request) (x : HttpReq) (v : Int) (h : f.req = some x) :
    ({ f with req := some x, retry := v } : Request) = { f with retry := v } := by
  cases f
  simp_all

/-! ## Behaviour of the backoff driver -/

/-- The driver stops at once, with nil, when the operation returns nil. -/
theorem backoffRetry_stop (t : Nat → DoResult) (fuel i : Nat) (f : Request)
    (h : (doReq f (t i)).2 = none) :
    backoffRetry t fuel i f = ((doReq f (t i)).1, none, 1) := by
  cases fuel with
  | zero => simp [backoffRetry, h]
  | succ fuel => simp [backoffRetry, h]

/-- With fuel left, a failing operation costs one delay and continues. -/
theorem backoffRetry_err_succ (t : Nat → DoResult) (fuel i : Nat) (f : Request) (e : Err)
    (h : (doReq f (t i)).2 = some e) :
    backoffRetry t (fuel + 1) i f =
      ((backoffRetry t fuel (i + 1) (doReq f (t i)).1).1,
       (backoffRetry t fuel (i + 1) (doReq f (t i)).1).2.1,
       (backoffRetry t fuel (i + 1) (doReq f (t i)).1).2.2 + 1) := by
  simp [backoffRetry, h]

/-- With no fuel left, the driver performs one last operation and returns
its outcome. -/
theorem backoffRetry_zero (t : Nat → DoResult) (i : Nat) (f : Request) :
    backoffRetry t 0 i f = ((doReq f (t i)).1, (doReq f (t i)).2, 1) := by
  simp [backoffRetry]

/-- A request whose materialization fails keeps failing with the same
error: the driver spins untouched through all its fuel and surfaces the
construction error, having invoked the operation `fuel + 1` times. -/
theorem backoffRetry_reqErr (t : Nat → DoResult) (e : Err) :
    ∀ (fuel i : Nat) (f : Request), newRequest f = Except.error e →
    backoffRetry t fuel i f = (f, some e, fuel + 1) := by
  intro fuel
  induction fuel with
  | zero =>
    intro i f h
    simp [backoffRetry, doReq_reqErr f (t i) e h]
  | succ fuel ih =>
    intro i f h
    simp [backoffRetry, doReq_reqErr f (t i) e h, ih (i + 1) f h]

/-- Driving the loop across `k` consecutive attempts that all answer with a
retryable 5xx: each one decrements the budget and consumes one unit of
elapsed-time fuel, and the loop continues from the state so reached. -/
theorem backoffRetry_serverRun (t : Nat → DoResult) (req0 : HttpReq) (k : Nat) :
    ∀ (fuel i : Nat) (f : Request),
    newRequest f = Except.ok req0 →
    f.req = some (setHeaders f req0) →
    (∀ j, j < k → (t (i + j)).err = none ∧ ∃ r, (t (i + j)).res = some r ∧
        500 ≤ r.statusCode ∧ r.statusCode ≤ 599) →
    (k : Int) ≤ f.retry → k ≤ fuel →
    backoffRetry t fuel i f =
      ((backoffRetry t (fuel - k) (i + k) { f with retry := f.retry - (k : Int) }).1,
       (backoffRetry t (fuel - k) (i + k) { f with retry := f.retry - (k : Int) }).2.1,
       (backoffRetry t (fuel - k) (i + k) { f with retry := f.retry - (k : Int) }).2.2 + k) := by
  induction k with
  | zero =>
    intro fuel i f hreq hset hpre hk hfuel
    simp only [Nat.cast_zero, Int.sub_zero, Nat.sub_zero, Nat.add_zero]
  | succ k ih =>
    intro fuel i f hreq hset hpre hk hfuel
    cases fuel with
    | zero => omega
    | succ fuel =>
      obtain ⟨ht0, r, hr0, h5, h5'⟩ := by
        have h := hpre 0 (by omega)
        rwa [Nat.add_zero] at h
      have hb : 0 < f.retry := by
        have : ((k : Int) + 1) ≤ f.retry := by push_cast at hk; omega
        omega
      have hstep := doReq_server f (t i) req0 r hreq ht0 hr0 h5 h5' hb
      have hsnd : (doReq f (t i)).2 = some "Server Error" := by rw [hstep]
      have hfst : (doReq f (t i)).1 = { f with retry := f.retry - 1 } := by
        rw [hstep]
        exact req_retry_update f (setHeaders f req0) (f.retry - 1) hset
      rw [backoffRetry_err_succ t fuel i f "Server Error" hsnd, hfst]
      have hih := ih fuel (i + 1) { f with retry := f.retry - 1 }
        hreq hset
        (by
          intro j hj
          have h := hpre (j + 1) (by omega)
          have hidx : i + (j + 1) = i + 1 + j := by omega
          rwa [hidx] at h)
        (by
          show (k : Int) ≤ f.retry - 1
          push_cast at hk
          omega)
        (by omega)
      rw [hih]
      have hretry : f.retry - 1 - (k : Int) = f.retry - ((k + 1 : Nat) : Int) := by
        push_cast
        ring
      have hidx2 : i + 1 + k = i + (k + 1) := by omega
      have hfuel2 : fuel - k = fuel + 1 - (k + 1) := by omega
      rw [show ({ f with retry := f.retry - 1 } : Request).retry = f.retry - 1 from rfl,
        hretry, hidx2, hfuel2]
      simp only [Prod.mk.injEq]
      refine ⟨trivial, trivial, ?_⟩
      omega

/-! ## C1 — transport errors and the retry budget -/

/-- A fresh builder pointed at an unreachable host with budget 3. -/
def c1req : Request := Retry (Get New "http://example.com") 3

/-- A transport that fails at the connection level on every attempt. -/
def c1transport : Nat → DoResult := fun _ => ⟨none, some "dial tcp: connection refused"⟩

/-- C1, as stated, is false on the code: with retry budget 3 and a
transport-level failure on the single attempt, the engine does not
decrement the budget and does not retry — it surfaces the transport error
after exactly one attempt while the budget is still 3 > 0. -/
theorem C1_counterexample :
    (doRun c1transport 5 c1req).error = some "dial tcp: connection refused" ∧
    (doRun c1transport 5 c1req).response = none ∧
    (doRun c1transport 5 c1req).state.retry = 3 ∧
    (doRun c1transport 5 c1req).ops = 1 ∧
    (0 : Int) < 3 :=
  ⟨rfl, rfl, rfl, rfl, by decide⟩

/-- C1 (amended): a transport-level failure is never retried, regardless of
the remaining budget: the error is surfaced to the caller immediately after
the one failing attempt, the budget is left undecremented, and no backoff
delay is incurred (the run does not depend on the elapsed-time fuel). -/
theorem C1_transport_error_surfaced_immediately (f : Request) (t : Nat → DoResult)
    (fuel : Nat) (req0 : HttpReq) (e : Err)
    (hreq : newRequest f = Except.ok req0) (ht : (t 0).err = some e) :
    (doRun t fuel f).error = some e ∧ (doRun t fuel f).response = none ∧
    (doRun t fuel f).state.retry = f.retry ∧ (doRun t fuel f).ops = 1 ∧
    doRun t fuel f = doRun t 0 f := by
  have hstep := doReq_transErr f (t 0) req0 e hreq ht
  have h2 : (doReq f (t 0)).2 = none := by rw [hstep]
  have herr : (doReq f (t 0)).1.err = some e := by rw [hstep]
  refine ⟨?_, ?_, ?_, ?_, ?_⟩ <;> simp [doRun, h2, herr, hstep]

/-- Witness for C1 (amended) at the concrete input of the counterexample. -/
theorem C1_transport_error_surfaced_immediately_witness :
    newRequest c1req = Except.ok (httpNewRequest "GET" "http://example.com" none) ∧
    (c1transport 0).err = some "dial tcp: connection refused" ∧
    ((doRun c1transport 5 c1req).error = some "dial tcp: connection refused" ∧
      (doRun c1transport 5 c1req).response = none ∧
      (doRun c1transport 5 c1req).state.retry = c1req.retry ∧
      (doRun c1transport 5 c1req).ops = 1 ∧
      doRun c1transport 5 c1req = doRun c1transport 0 c1req) :=
  ⟨rfl, rfl,
    C1_transport_error_surfaced_immediately c1req c1transport 5
      (httpNewRequest "GET" "http://example.com" none)
      "dial tcp: connection refused" rfl rfl⟩

/-! ## C2 — 5xx retries until the budget is exhausted -/

/-- C2: for retry budget N ≥ 1 and a transport answering a 500 response on
every attempt, the engine makes exactly N retry attempts beyond the first
(N + 1 operation invocations in total), the budget reaches exactly 0, and
the run terminates with the last 500 response as the result and a nil
error — provided the elapsed-time fuel allows the N backoff delays. -/
theorem C2_always_500_exhausts_budget_without_error (N : Nat) (f : Request)
    (t : Nat → DoResult) (fuel : Nat) (req0 : HttpReq) (resp : Nat → Response)
    (hN : 1 ≤ N) (hretry : f.retry = (N : Int)) (herr0 : f.err = none)
    (hreq : newRequest f = Except.ok req0)
    (ht : ∀ i, t i = ⟨some (resp i), none⟩)
    (h500 : ∀ i, (resp i).statusCode = 500)
    (hfuel : N ≤ fuel + 1) :
    (doRun t fuel f).response = some (resp N) ∧
    (doRun t fuel f).error = none ∧
    (doRun t fuel f).state.retry = 0 ∧
    (doRun t fuel f).ops = N + 1 := by
  obtain ⟨k, rfl⟩ : ∃ k, N = k + 1 := ⟨N - 1, by omega⟩
  have hb : 0 < f.retry := by rw [hretry]; push_cast; omega
  have hstep0 := doReq_server f (t 0) req0 (resp 0) hreq
    (by rw [ht 0]) (by rw [ht 0]) (by rw [h500 0]) (by rw [h500 0]; decide) hb
  have h2 : (doReq f (t 0)).2 = some "Server Error" := by rw [hstep0]
  have hfst0 : (doReq f (t 0)).1 =
      ({ f with req := some (setHeaders f req0), retry := f.retry - 1 } : Request) := by
    rw [hstep0]
  have hloop := backoffRetry_serverRun t req0 k fuel 1
    ({ f with req := some (setHeaders f req0), retry := f.retry - 1 })
    hreq rfl
    (by
      intro j hj
      refine ⟨by rw [ht (1 + j)], resp (1 + j), by rw [ht (1 + j)], ?_, ?_⟩
      · rw [h500 (1 + j)]
      · rw [h500 (1 + j)]; decide)
    (by
      show (k : Int) ≤ f.retry - 1
      rw [hretry]; push_cast; omega)
    (by omega)
  rw [Nat.add_comm 1 k] at hloop
  set g : Request :=
    { ({ f with req := some (setHeaders f req0), retry := f.retry - 1 } : Request) with
      retry := ({ f with req := some (setHeaders f req0), retry := f.retry - 1 } :
        Request).retry - (k : Int) } with hg
  have hgretry : g.retry = 0 := by
    show f.retry - 1 - (k : Int) = 0
    rw [hretry]; push_cast; omega
  have hfinstep := doReq_success g (t (k + 1)) req0 (resp (k + 1)) hreq
    (by rw [ht (k + 1)]) (by rw [ht (k + 1)])
    (by rw [hgretry]; intro hc; exact absurd hc.2.2 (by decide))
  have hfin : backoffRetry t (fuel - k) (k + 1) g =
      ((doReq g (t (k + 1))).1, none, 1) :=
    backoffRetry_stop t (fuel - k) (k + 1) g (by rw [hfinstep])
  rw [hfin] at hloop
  have herr2 : (doReq g (t (k + 1))).1.err = none := by rw [hfinstep]; exact herr0
  have hres2 : (doReq g (t (k + 1))).1.res = some (resp (k + 1)) := by rw [hfinstep]
  have hretry2 : (doReq g (t (k + 1))).1.retry = 0 := by rw [hfinstep]; exact hgretry
  refine ⟨?_, ?_, ?_, ?_⟩
  · simp only [doRun, h2, hfst0, hloop]
    simp [herr2, hres2]
  · simp only [doRun, h2, hfst0, hloop]
    simp [herr2]
  · simp only [doRun, h2, hfst0, hloop]
    simp [herr2, hretry2]
  · simp only [doRun, h2, hfst0, hloop]
    simp [herr2]
    omega

/-- A builder with budget 3 pointed at an always-500 server. -/
def c2req : Request := Retry (Post New "http://x") 3

/-- The 500 response handed to the i-th attempt (bodies differ so the last
response is distinguishable). -/
def c2resp : Nat → Response := fun i => ⟨500, toString i⟩

/-- Transport answering `c2resp i` to the i-th attempt. -/
def c2transport : Nat → DoResult := fun i => ⟨some (c2resp i), none⟩

/-- Witness for C2 at N = 3: four attempts, budget drained to 0, the last
500 response returned with a nil error. -/
theorem C2_always_500_exhausts_budget_without_error_witness :
    ((1 : Nat) ≤ 3 ∧ c2req.retry = ((3 : Nat) : Int) ∧ c2req.err = none ∧
      newRequest c2req = Except.ok (httpNewRequest "POST" "http://x" none) ∧
      (∀ i, c2transport i = ⟨some (c2resp i), none⟩) ∧
      (∀ i, (c2resp i).statusCode = 500) ∧ (3 : Nat) ≤ 3 + 1) ∧
    ((doRun c2transport 3 c2req).response = some (c2resp 3) ∧
      (doRun c2transport 3 c2req).error = none ∧
      (doRun c2transport 3 c2req).state.retry = 0 ∧
      (doRun c2transport 3 c2req).ops = 3 + 1) :=
  ⟨⟨by decide, rfl, rfl, rfl, fun i => rfl, fun i => rfl, by decide⟩,
    C2_always_500_exhausts_budget_without_error 3 c2req c2transport 3
      (httpNewRequest "POST" "http://x" none) c2resp (by decide) rfl rfl rfl
      (fun i => rfl) (fun i => rfl) (by decide)⟩

/-! ## C3 — serialization failures and the backoff loop -/

/-- A builder whose structured payload cannot be serialized. -/
def c3req : Request :=
  Json (Post New "http://x") (JsonVal.bad "json: unsupported type: chan int")

/-- A transport that would answer 200 — it is never consulted. -/
def c3transport : Nat → DoResult := fun _ => ⟨some ⟨200, "ok"⟩, none⟩

/-- C3, as stated, is false on the code: a serialization failure is NOT
surfaced immediately and IS retried — the backoff loop is entered and the
operation re-invoked until the elapsed-time budget is exhausted (4
invocations at fuel 2, 7 at fuel 5, against the claimed single one). -/
theorem C3_counterexample :
    (doRun c3transport 2 c3req).ops = 4 ∧
    (doRun c3transport 5 c3req).ops = 7 ∧
    (doRun c3transport 2 c3req).error = some "json: unsupported type: chan int" ∧
    (doRun c3transport 2 c3req).response = none :=
  ⟨rfl, rfl, rfl, rfl⟩

/-- C3 (amended): a serialization failure produces an error before any
transport exchange — the run is independent of the transport — but the
backoff retry loop IS entered and serialization re-attempted after every
backoff delay; the error is surfaced (with a nil response) only when the
elapsed-time budget is exhausted, after `fuel + 2` operation invocations. -/
theorem C3_serialization_error_enters_backoff_loop (f : Request)
    (t1 t2 : Nat → DoResult) (fuel : Nat) (e : Err)
    (hset : f.jsonIsSet = true) (hbad : f.json = some (JsonVal.bad e)) :
    (doRun t1 fuel f).error = some e ∧ (doRun t1 fuel f).response = none ∧
    (doRun t1 fuel f).ops = fuel + 2 ∧ doRun t1 fuel f = doRun t2 fuel f := by
  have hreq : newRequest f = Except.error e := by
    simp [newRequest, hset, hbad, marshal]
  refine ⟨?_, ?_, ?_, ?_⟩ <;>
    · simp [doRun, doReq_reqErr f (t1 0) e hreq, doReq_reqErr f (t2 0) e hreq,
        backoffRetry_reqErr t1 e fuel 1 f hreq, backoffRetry_reqErr t2 e fuel 1 f hreq]
      try omega

/-- Witness for C3 (amended) at the concrete input of the counterexample. -/
theorem C3_serialization_error_enters_backoff_loop_witness :
    (c3req.jsonIsSet = true ∧
      c3req.json = some (JsonVal.bad "json: unsupported type: chan int")) ∧
    ((doRun c3transport 2 c3req).error = some "json: unsupported type: chan int" ∧
      (doRun c3transport 2 c3req).response = none ∧
      (doRun c3transport 2 c3req).ops = 2 + 2 ∧
      doRun c3transport 2 c3req = doRun (fun _ => ⟨none, some "unplugged"⟩) 2 c3req) :=
  ⟨⟨rfl, rfl⟩,
    C3_serialization_error_enters_backoff_loop c3req c3transport
      (fun _ => ⟨none, some "unplugged"⟩) 2 "json: unsupported type: chan int" rfl rfl⟩

/-! ## C4 — retry budget 0 means one attempt, any failure terminal -/

/-- C4: with retry budget 0 exactly one attempt is made, no backoff delay
is ever incurred (the run is independent of the elapsed-time fuel), a
transport error is surfaced as the error with a nil response, and any
response — a 5xx included — is returned as the response with a nil error. -/
theorem C4_zero_budget_single_attempt (f : Request) (t : Nat → DoResult) (fuel : Nat)
    (req0 : HttpReq) (hretry : f.retry = 0) (herr0 : f.err = none)
    (hreq : newRequest f = Except.ok req0) :
    (doRun t fuel f).ops = 1 ∧ doRun t fuel f = doRun t 0 f ∧
    (∀ e, (t 0).err = some e →
      (doRun t fuel f).response = none ∧ (doRun t fuel f).error = some e) ∧
    (∀ r, (t 0).err = none → (t 0).res = some r →
      (doRun t fuel f).response = some r ∧ (doRun t fuel f).error = none) := by
  cases he : (t 0).err with
  | some e =>
    have hstep := doReq_transErr f (t 0) req0 e hreq he
    have h2 : (doReq f (t 0)).2 = none := by rw [hstep]
    have herr : (doReq f (t 0)).1.err = some e := by rw [hstep]
    refine ⟨?_, ?_, ?_, ?_⟩
    · simp [doRun, h2, herr]
    · simp [doRun, h2, herr]
    · intro e' he'
      cases he'
      constructor <;> simp [doRun, h2, herr]
    · intro r he' _
      simp at he'
  | none =>
    have hnot : ∀ r : Response,
        ¬(500 ≤ r.statusCode ∧ r.statusCode ≤ 599 ∧ 0 < f.retry) := by
      intro r hc
      rw [hretry] at hc
      exact absurd hc.2.2 (by decide)
    cases hr : (t 0).res with
    | some r =>
      have hstep := doReq_success f (t 0) req0 r hreq he hr (hnot r)
      have h2 : (doReq f (t 0)).2 = none := by rw [hstep]
      have herr : (doReq f (t 0)).1.err = none := by rw [hstep]; exact herr0
      have hres : (doReq f (t 0)).1.res = some r := by rw [hstep]
      refine ⟨?_, ?_, ?_, ?_⟩
      · simp [doRun, h2, herr]
      · simp [doRun, h2, herr]
      · intro e' he'
        simp at he'
      · intro r' _ hr'
        cases hr'
        constructor <;> simp [doRun, h2, herr, hres]
    | none =>
      have hstep := doReq_noRes f (t 0) req0 hreq he hr
      have h2 : (doReq f (t 0)).2 = none := by rw [hstep]
      have herr : (doReq f (t 0)).1.err = none := by rw [hstep]; exact herr0
      refine ⟨?_, ?_, ?_, ?_⟩
      · simp [doRun, h2, herr]
      · simp [doRun, h2, herr]
      · intro e' he'
        simp at he'
      · intro r' _ hr'
        simp at hr'

/-- A fresh builder (budget 0) against a permanently failing transport. -/
def c4transport : Nat → DoResult := fun _ => ⟨none, some "connection reset by peer"⟩

/-- Witness for C4 at budget 0 with a transport error: one attempt, error
surfaced at once. -/
theorem C4_zero_budget_single_attempt_witness :
    ((Get New "http://x").retry = 0 ∧ (Get New "http://x").err = none ∧
      newRequest (Get New "http://x") = Except.ok (httpNewRequest "GET" "http://x" none)) ∧
    ((doRun c4transport 9 (Get New "http://x")).ops = 1 ∧
      doRun c4transport 9 (Get New "http://x") = doRun c4transport 0 (Get New "http://x") ∧
      (∀ e, (c4transport 0).err = some e →
        (doRun c4transport 9 (Get New "http://x")).response = none ∧
        (doRun c4transport 9 (Get New "http://x")).error = some e) ∧
      (∀ r, (c4transport 0).err = none → (c4transport 0).res = some r →
        (doRun c4transport 9 (Get New "http://x")).response = some r ∧
        (doRun c4transport 9 (Get New "http://x")).error = none)) :=
  ⟨⟨rfl, rfl, rfl⟩,
    C4_zero_budget_single_attempt (Get New "http://x") c4transport 9
      (httpNewRequest "GET" "http://x" none) rfl rfl rfl⟩

/-! ## C5 — outcome classification by status code -/

/-- C5: when the transport call succeeds, the attempt signals a server
error exactly when the status code lies in [500, 599] and budget remains;
any status outside [500, 599] resolves immediately to success — the
response is stored, the budget is not decremented, and no retry signal is
raised, regardless of remaining budget — while an in-range status with
budget remaining decrements the budget and raises the retry signal. -/
theorem C5_server_error_iff_status_5xx (f : Request) (td : DoResult)
    (req0 : HttpReq) (r : Response)
    (hreq : newRequest f = Except.ok req0) (ht : td.err = none) (hr : td.res = some r) :
    ((doReq f td).2 = some "Server Error" ↔
      (500 ≤ r.statusCode ∧ r.statusCode ≤ 599 ∧ 0 < f.retry)) ∧
    (¬(500 ≤ r.statusCode ∧ r.statusCode ≤ 599) →
      doReq f td = ({ f with req := some (setHeaders f req0), res := some r }, none)) ∧
    (500 ≤ r.statusCode → r.statusCode ≤ 599 → 0 < f.retry →
      doReq f td =
        ({ f with req := some (setHeaders f req0), retry := f.retry - 1 },
          some "Server Error")) := by
  by_cases hc : 500 ≤ r.statusCode ∧ r.statusCode ≤ 599 ∧ 0 < f.retry
  · have hstep := doReq_server f td req0 r hreq ht hr hc.1 hc.2.1 hc.2.2
    refine ⟨?_, ?_, ?_⟩
    · rw [hstep]
      simp [hc]
    · intro hno
      exact absurd ⟨hc.1, hc.2.1⟩ hno
    · intro _ _ _
      exact hstep
  · have hstep := doReq_success f td req0 r hreq ht hr hc
    refine ⟨?_, ?_, ?_⟩
    · rw [hstep]
      simp [hc]
    · intro _
      exact hstep
    · intro h1 h2 h3
      exact absurd ⟨h1, h2, h3⟩ hc

/-- A 404 handed to a builder with plenty of budget. -/
def c5result : DoResult := ⟨some ⟨404, "not found"⟩, none⟩

/-- Witness for C5 at a 404 with budget 7: no retry signal, no decrement. -/
theorem C5_server_error_iff_status_5xx_witness :
    (newRequest (Retry (Get New "http://x") 7) =
        Except.ok (httpNewRequest "GET" "http://x" none) ∧
      c5result.err = none ∧ c5result.res = some ⟨404, "not found"⟩) ∧
    (((doReq (Retry (Get New "http://x") 7) c5result).2 = some "Server Error" ↔
        (500 ≤ (⟨404, "not found"⟩ : Response).statusCode ∧
          (⟨404, "not found"⟩ : Response).statusCode ≤ 599 ∧
          0 < (Retry (Get New "http://x") 7).retry)) ∧
      (¬(500 ≤ (⟨404, "not found"⟩ : Response).statusCode ∧
          (⟨404, "not found"⟩ : Response).statusCode ≤ 599) →
        doReq (Retry (Get New "http://x") 7) c5result =
          ({ Retry (Get New "http://x") 7 with
              req := some (setHeaders (Retry (Get New "http://x") 7)
                (httpNewRequest "GET" "http://x" none)),
              res := some ⟨404, "not found"⟩ }, none)) ∧
      (500 ≤ (⟨404, "not found"⟩ : Response).statusCode →
        (⟨404, "not found"⟩ : Response).statusCode ≤ 599 →
        0 < (Retry (Get New "http://x") 7).retry →
        doReq (Retry (Get New "http://x") 7) c5result =
          ({ Retry (Get New "http://x") 7 with
              req := some (setHeaders (Retry (Get New "http://x") 7)
                (httpNewRequest "GET" "http://x" none)),
              retry := (Retry (Get New "http://x") 7).retry - 1 },
            some "Server Error"))) :=
  ⟨⟨rfl, rfl, rfl⟩,
    C5_server_error_iff_status_5xx (Retry (Get New "http://x") 7) c5result
      (httpNewRequest "GET" "http://x" none) ⟨404, "not found"⟩ rfl rfl rfl⟩

/-! ## C6 — body representation precedence -/

/-- A builder that sets a structured payload and then a raw body. -/
def c6req : Request := Body (Json New (JsonVal.val "[1,2,3]")) "raw body"

/-- C6, as stated, is false on the code: setting a raw body AFTER a
structured payload does not send the raw body — materialization still
serializes the structured payload, because the `jsonIsSet` flag is never
cleared. -/
theorem C6_counterexample :
    newRequest c6req = Except.ok (httpNewRequest "" "" (some "[1,2,3]")) ∧
    "[1,2,3]" ≠ "raw body" :=
  ⟨rfl, by decide⟩

/-- C6 (amended): the structured payload takes priority over the raw body
in BOTH orders — once `Json` has been called, materialization sends the
serialized payload even if `Body` is called afterwards — and `Json` forces
the Content-type header to application/json; `Json` after `Body` likewise
sends the serialized payload. -/
theorem C6_json_payload_wins_in_both_orders (f : Request) (j : JsonVal) (b s : String)
    (hm : marshal (some j) = Except.ok s) :
    newRequest (Body (Json f j) b) = Except.ok (httpNewRequest f.method f.url (some s)) ∧
    newRequest (Json (Body f b) j) = Except.ok (httpNewRequest f.method f.url (some s)) ∧
    (Body (Json f j) b).header "Content-type" = some "application/json" ∧
    (Json (Body f b) j).header "Content-type" = some "application/json" := by
  refine ⟨?_, ?_, ?_, ?_⟩ <;> simp [newRequest, Json, Body, SetHeader, hm]

/-- Witness for C6 (amended) at the counterexample's input. -/
theorem C6_json_payload_wins_in_both_orders_witness :
    marshal (some (JsonVal.val "[1,2,3]")) = Except.ok "[1,2,3]" ∧
    (newRequest (Body (Json New (JsonVal.val "[1,2,3]")) "raw body") =
        Except.ok (httpNewRequest New.method New.url (some "[1,2,3]")) ∧
      newRequest (Json (Body New "raw body") (JsonVal.val "[1,2,3]")) =
        Except.ok (httpNewRequest New.method New.url (some "[1,2,3]")) ∧
      (Body (Json New (JsonVal.val "[1,2,3]")) "raw body").header "Content-type" =
        some "application/json" ∧
      (Json (Body New "raw body") (JsonVal.val "[1,2,3]")).header "Content-type" =
        some "application/json") :=
  ⟨rfl,
    C6_json_payload_wins_in_both_orders New (JsonVal.val "[1,2,3]") "raw body"
      "[1,2,3]" rfl⟩

/-! ## C7 — SetHeader replaces per key -/

/-- C7: `SetHeader` is Go map assignment — after two writes to the same
key the second value is bound, and every other key is unchanged. -/
theorem C7_setheader_last_write_wins (f : Request) (k v1 v2 k' : String)
    (hk : k' ≠ k) :
    (SetHeader (SetHeader f k v1) k v2).header k = some v2 ∧
    (SetHeader (SetHeader f k v1) k v2).header k' = f.header k' := by
  constructor
  · simp [SetHeader]
  · simp [SetHeader, hk]

/-- Witness for C7 on concrete keys. -/
theorem C7_setheader_last_write_wins_witness :
    "X-Other" ≠ "X-Token" ∧
    ((SetHeader (SetHeader New "X-Token" "a") "X-Token" "b").header "X-Token" = some "b" ∧
      (SetHeader (SetHeader New "X-Token" "a") "X-Token" "b").header "X-Other" =
        New.header "X-Other") :=
  ⟨by decide, C7_setheader_last_write_wins New "X-Token" "a" "b" "X-Other" (by decide)⟩

/-! ## C8 — exactly one of response or error -/

/-- C8: `Send` returns a response exactly when the error is nil, and then
the response is the stored one; whenever the error is non-nil the
response is nil. -/
theorem C8_response_iff_no_error (t : Nat → DoResult) (fuel : Nat) (f : Request) :
    (Send t fuel f).1 =
      (if (Send t fuel f).2 = none then (doRun t fuel f).state.res else none) := by
  simp only [Send, doRun]
  split
  · split <;> simp
  · split
    · simp
    · split <;> simp

/-! ## C9 — a transport error inside the retry loop is terminal -/

/-- C9: when attempts 0..m all answer a retryable 500 and attempt m+1
fails at the transport level, the loop terminates at once: the run returns
that transport error with a nil response after exactly m+2 attempts, even
though retry budget remains (the final budget is positive). -/
theorem C9_transport_error_mid_loop_terminates (f : Request) (t : Nat → DoResult)
    (fuel m : Nat) (req0 : HttpReq) (e : Err) (resp : Nat → Response)
    (hreq : newRequest f = Except.ok req0)
    (ht500 : ∀ j, j ≤ m → t j = ⟨some (resp j), none⟩)
    (h500 : ∀ j, j ≤ m → (resp j).statusCode = 500)
    (hte : (t (m + 1)).err = some e)
    (hbudget : (m : Int) + 2 ≤ f.retry)
    (hfuel : m ≤ fuel) :
    (doRun t fuel f).error = some e ∧ (doRun t fuel f).response = none ∧
    (doRun t fuel f).ops = m + 2 ∧
    (doRun t fuel f).state.retry = f.retry - ((m : Int) + 1) ∧
    0 < (doRun t fuel f).state.retry := by
  have hb : 0 < f.retry := by omega
  have hstep0 := doReq_server f (t 0) req0 (resp 0) hreq
    (by rw [ht500 0 (by omega)]) (by rw [ht500 0 (by omega)])
    (by rw [h500 0 (by omega)]) (by rw [h500 0 (by omega)]; decide) hb
  have h2 : (doReq f (t 0)).2 = some "Server Error" := by rw [hstep0]
  have hfst0 : (doReq f (t 0)).1 =
      ({ f with req := some (setHeaders f req0), retry := f.retry - 1 } : Request) := by
    rw [hstep0]
  have hloop := backoffRetry_serverRun t req0 m fuel 1
    ({ f with req := some (setHeaders f req0), retry := f.retry - 1 })
    hreq rfl
    (by
      intro j hj
      refine ⟨by rw [ht500 (1 + j) (by omega)], resp (1 + j),
        by rw [ht500 (1 + j) (by omega)], ?_, ?_⟩
      · rw [h500 (1 + j) (by omega)]
      · rw [h500 (1 + j) (by omega)]; decide)
    (by
      show (m : Int) ≤ f.retry - 1
      omega)
    hfuel
  rw [Nat.add_comm 1 m] at hloop
  set g : Request :=
    { ({ f with req := some (setHeaders f req0), retry := f.retry - 1 } : Request) with
      retry := ({ f with req := some (setHeaders f req0), retry := f.retry - 1 } :
        Request).retry - (m : Int) } with hg
  have hstep2 := doReq_transErr g (t (m + 1)) req0 e hreq hte
  have hfin : backoffRetry t (fuel - m) (m + 1) g =
      ((doReq g (t (m + 1))).1, none, 1) :=
    backoffRetry_stop t (fuel - m) (m + 1) g (by rw [hstep2])
  rw [hfin] at hloop
  have herr2 : (doReq g (t (m + 1))).1.err = some e := by rw [hstep2]
  have hretry2 : (doReq g (t (m + 1))).1.retry = f.retry - 1 - (m : Int) := by
    rw [hstep2]
  refine ⟨?_, ?_, ?_, ?_, ?_⟩
  · simp only [doRun, h2, hfst0, hloop]
    simp [herr2]
  · simp only [doRun, h2, hfst0, hloop]
    simp [herr2]
  · simp only [doRun, h2, hfst0, hloop]
    simp [herr2]
    omega
  · simp only [doRun, h2, hfst0, hloop]
    simp [herr2, hretry2]
    omega
  · simp only [doRun, h2, hfst0, hloop]
    simp [herr2, hretry2]
    omega

/-- The constant 500 response of the C9 witness scenario. -/
def c9resp : Nat → Response := fun _ => ⟨500, "oops"⟩

/-- Transport of the C9 witness: 500 on attempts 0 and 1, then a
connection failure. -/
def c9transport : Nat → DoResult :=
  fun j => if j ≤ 1 then ⟨some (c9resp j), none⟩ else ⟨none, some "broken pipe"⟩

/-- Witness for C9 at m = 1, budget 9, fuel 5: the run stops after 3
attempts with the transport error, 7 > 0 budget left. -/
theorem C9_transport_error_mid_loop_terminates_witness :
    (newRequest (Retry (Get New "http://x") 9) =
        Except.ok (httpNewRequest "GET" "http://x" none) ∧
      (∀ j, j ≤ 1 → c9transport j = ⟨some (c9resp j), none⟩) ∧
      (∀ j, j ≤ 1 → (c9resp j).statusCode = 500) ∧
      (c9transport (1 + 1)).err = some "broken pipe" ∧
      ((1 : Nat) : Int) + 2 ≤ (Retry (Get New "http://x") 9).retry ∧
      (1 : Nat) ≤ 5) ∧
    ((doRun c9transport 5 (Retry (Get New "http://x") 9)).error = some "broken pipe" ∧
      (doRun c9transport 5 (Retry (Get New "http://x") 9)).response = none ∧
      (doRun c9transport 5 (Retry (Get New "http://x") 9)).ops = 1 + 2 ∧
      (doRun c9transport 5 (Retry (Get New "http://x") 9)).state.retry =
        (Retry (Get New "http://x") 9).retry - (((1 : Nat) : Int) + 1) ∧
      0 < (doRun c9transport 5 (Retry (Get New "http://x") 9)).state.retry) :=
  ⟨⟨rfl, fun j hj => by simp [c9transport, hj], fun j hj => rfl, rfl,
      by decide, by decide⟩,
    C9_transport_error_mid_loop_terminates (Retry (Get New "http://x") 9) c9transport
      5 1 (httpNewRequest "GET" "http://x" none) "broken pipe" c9resp rfl
      (fun j hj => by simp [c9transport, hj]) (fun j hj => rfl) rfl
      (by decide) (by decide)⟩

/-! ## C10 — a fresh builder makes exactly one attempt -/

/-- C10: `New` starts with retry budget 0, an empty header map, no raw
body and no structured payload; consequently a run on a fresh builder
(here configured only with `Get`) performs exactly one attempt whatever
the transport does, and never retries — the run is independent of the
elapsed-time fuel. -/
theorem C10_new_zero_values_single_attempt (u : String) (t : Nat → DoResult)
    (fuel : Nat) :
    New.retry = 0 ∧ (∀ k, New.header k = none) ∧ New.body = none ∧
    New.jsonIsSet = false ∧ New.json = none ∧
    (doRun t fuel (Get New u)).ops = 1 ∧
    doRun t fuel (Get New u) = doRun t 0 (Get New u) := by
  have hop : (doReq (Get New u) (t 0)).2 = none := by
    cases hd : (t 0).err with
    | some e =>
      rw [doReq_transErr (Get New u) (t 0) (httpNewRequest "GET" u none) e rfl hd]
    | none =>
      cases hr : (t 0).res with
      | some r =>
        rw [doReq_success (Get New u) (t 0) (httpNewRequest "GET" u none) r rfl hd hr
          (fun hc => absurd hc.2.2 (by decide : ¬((0 : Int) < 0)))]
      | none =>
        rw [doReq_noRes (Get New u) (t 0) (httpNewRequest "GET" u none) rfl hd hr]
  refine ⟨rfl, fun k => rfl, rfl, rfl, rfl, ?_, ?_⟩
  · cases h1 : (doReq (Get New u) (t 0)).1.err <;> simp [doRun, hop, h1]
  · cases h1 : (doReq (Get New u) (t 0)).1.err <;> simp [doRun, hop, h1]

end Fluent
